import Mathlib

/-
Verification of the GCP configuration module (src/config/gcp_config.py).
The module is a declarative data file: a storage-settings mapping
(GCP_CONFIG) and a BigQuery table description (BIGQUERY_CONFIG) holding
an ordered list of field descriptors. The embedding below reproduces the
two literals field by field; accessors, lookup, validation and
serialization are modelled from the spec since the source contains none.
-/

/-- The storage-settings mapping GCP_CONFIG of gcp_config.py,
embedded as a record with one string attribute per key. -/
structure StorageConfiguration where
  project_id : String
  bucket_name : String
  dataset_id : String
  location : String
  storage_class : String
  raw_data_prefix : String
  processed_data_prefix : String
  model_artifacts_prefix : String
  deriving DecidableEq, Repr

/-- The literal value of GCP_CONFIG (gcp_config.py lines 3-12). -/
def GCP_CONFIG : StorageConfiguration where
  project_id := "hotel-booking-mlops"
  bucket_name := "hotel-booking-mlops-data"
  dataset_id := "hotel_booking_mlops"
  location := "us-central1"
  storage_class := "STANDARD"
  raw_data_prefix := "raw/"
  processed_data_prefix := "processed/"
  model_artifacts_prefix := "models/"

/-- One entry of the schema list: a pair of a field name and a type tag,
exactly the two keys each dict literal in the source carries. -/
structure FieldDescriptor where
  name : String
  type : String
  deriving DecidableEq, Repr

/-- The BIGQUERY_CONFIG mapping: the booking table name and the
ordered schema list. -/
structure BigQueryConfig where
  booking_table : String
  schema : List FieldDescriptor
  deriving DecidableEq, Repr

/-- The literal value of BIGQUERY_CONFIG (gcp_config.py lines 15-51),
one list entry per dict literal, in source order. -/
def BIGQUERY_CONFIG : BigQueryConfig where
  booking_table := "hotel_bookings"
  schema :=
    [ ⟨"hotel", "STRING"⟩,
      ⟨"is_canceled", "INTEGER"⟩,
      ⟨"lead_time", "INTEGER"⟩,
      ⟨"arrival_date_year", "INTEGER"⟩,
      ⟨"arrival_date_month", "STRING"⟩,
      ⟨"arrival_date_week_number", "INTEGER"⟩,
      ⟨"arrival_date_day_of_month", "INTEGER"⟩,
      ⟨"stays_in_weekend_nights", "INTEGER"⟩,
      ⟨"stays_in_week_nights", "INTEGER"⟩,
      ⟨"adults", "INTEGER"⟩,
      ⟨"children", "INTEGER"⟩,
      ⟨"babies", "INTEGER"⟩,
      ⟨"meal", "STRING"⟩,
      ⟨"country", "STRING"⟩,
      ⟨"market_segment", "STRING"⟩,
      ⟨"distribution_channel", "STRING"⟩,
      ⟨"is_repeated_guest", "INTEGER"⟩,
      ⟨"previous_cancellations", "INTEGER"⟩,
      ⟨"previous_bookings_not_canceled", "INTEGER"⟩,
      ⟨"reserved_room_type", "STRING"⟩,
      ⟨"assigned_room_type", "STRING"⟩,
      ⟨"booking_changes", "INTEGER"⟩,
      ⟨"deposit_type", "STRING"⟩,
      ⟨"agent", "STRING"⟩,
      ⟨"company", "STRING"⟩,
      ⟨"days_in_waiting_list", "INTEGER"⟩,
      ⟨"customer_type", "STRING"⟩,
      ⟨"adr", "FLOAT"⟩,
      ⟨"required_car_parking_spaces", "INTEGER"⟩,
      ⟨"total_of_special_requests", "INTEGER"⟩,
      ⟨"reservation_status", "STRING"⟩,
      ⟨"reservation_status_date", "DATE"⟩ ]

/-- The fixed enumeration of legal type tags stated by the spec. -/
def ALLOWED_TYPES : List String := ["STRING", "INTEGER", "FLOAT", "DATE"]

/-- Modelled from the spec: the read-only accessor getStorageConfig of
section 4.1; the source has no function, only the module-level constant,
so each call is a run of this pure function on the unit argument. -/
def getStorageConfig : Unit → StorageConfiguration := fun _ => GCP_CONFIG

/-- Modelled from the spec: the scenario of section 8 asks for an
Option-valued lookup of a field by name over the ordered schema list;
the source has no lookup function. -/
def findField (fieldName : String) : Option FieldDescriptor :=
  BIGQUERY_CONFIG.schema.find? (fun f => f.name == fieldName)

/-- The Configuration Record of the spec: the storage configuration
together with the BigQuery table schema descriptor — the whole content
of gcp_config.py. -/
structure ConfigRecord where
  storage : StorageConfiguration
  bigquery : BigQueryConfig
  deriving DecidableEq, Repr

/-- The configuration record the module defines. -/
def CONFIG_RECORD : ConfigRecord := ⟨GCP_CONFIG, BIGQUERY_CONFIG⟩

/-- Modelled from the spec: a JSON value, as far as serialization of
this configuration needs it (strings, arrays, objects); the source has
no serialization code. -/
inductive Json where
  | str : String → Json
  | arr : List Json → Json
  | obj : List (String × Json) → Json
  deriving Repr

/-- First value bound to a key in a JSON object body. -/
def lookupKey (k : String) : List (String × Json) → Option Json
  | [] => none
  | (k', v) :: rest => if k' = k then some v else lookupKey k rest

/-- A JSON value read back as a string, when it is one. -/
def Json.asStr : Json → Option String
  | Json.str s => some s
  | _ => none

/-- Modelled from the spec: serialization of the storage configuration
to a JSON object, one key per attribute, in source order. -/
def StorageConfiguration.toJson (c : StorageConfiguration) : Json :=
  Json.obj
    [ ("project_id", Json.str c.project_id),
      ("bucket_name", Json.str c.bucket_name),
      ("dataset_id", Json.str c.dataset_id),
      ("location", Json.str c.location),
      ("storage_class", Json.str c.storage_class),
      ("raw_data_prefix", Json.str c.raw_data_prefix),
      ("processed_data_prefix", Json.str c.processed_data_prefix),
      ("model_artifacts_prefix", Json.str c.model_artifacts_prefix) ]

/-- Modelled from the spec: parsing a storage configuration back from
a JSON object; any missing or non-string attribute yields none. -/
def StorageConfiguration.fromJson : Json → Option StorageConfiguration
  | Json.obj kvs => do
      let pid ← (← lookupKey "project_id" kvs).asStr
      let bn ← (← lookupKey "bucket_name" kvs).asStr
      let ds ← (← lookupKey "dataset_id" kvs).asStr
      let loc ← (← lookupKey "location" kvs).asStr
      let sc ← (← lookupKey "storage_class" kvs).asStr
      let rp ← (← lookupKey "raw_data_prefix" kvs).asStr
      let pp ← (← lookupKey "processed_data_prefix" kvs).asStr
      let mp ← (← lookupKey "model_artifacts_prefix" kvs).asStr
      some ⟨pid, bn, ds, loc, sc, rp, pp, mp⟩
  | _ => none

/-- Modelled from the spec: serialization of one field descriptor. -/
def FieldDescriptor.toJson (f : FieldDescriptor) : Json :=
  Json.obj [("name", Json.str f.name), ("type", Json.str f.type)]

/-- Modelled from the spec: parsing one field descriptor back. -/
def FieldDescriptor.fromJson : Json → Option FieldDescriptor
  | Json.obj kvs => do
      let n ← (← lookupKey "name" kvs).asStr
      let t ← (← lookupKey "type" kvs).asStr
      some ⟨n, t⟩
  | _ => none

/-- Modelled from the spec: serialization of the table schema
descriptor — the table name and the ordered field array. -/
def BigQueryConfig.toJson (c : BigQueryConfig) : Json :=
  Json.obj
    [ ("booking_table", Json.str c.booking_table),
      ("schema", Json.arr (c.schema.map FieldDescriptor.toJson)) ]

/-- Modelled from the spec: parsing the table schema descriptor back. -/
def BigQueryConfig.fromJson : Json → Option BigQueryConfig
  | Json.obj kvs => do
      let t ← (← lookupKey "booking_table" kvs).asStr
      match ← lookupKey "schema" kvs with
      | Json.arr js => do
          let fs ← js.mapM FieldDescriptor.fromJson
          some ⟨t, fs⟩
      | _ => none
  | _ => none

/-- Modelled from the spec: serialization of the whole configuration
record. -/
def ConfigRecord.toJson (c : ConfigRecord) : Json :=
  Json.obj
    [ ("gcp_config", StorageConfiguration.toJson c.storage),
      ("bigquery_config", BigQueryConfig.toJson c.bigquery) ]

/-- Modelled from the spec: parsing the whole configuration record
back. -/
def ConfigRecord.fromJson (j : Json) : Option ConfigRecord :=
  match j with
  | Json.obj kvs => do
      let s ← StorageConfiguration.fromJson (← lookupKey "gcp_config" kvs)
      let b ← BigQueryConfig.fromJson (← lookupKey "bigquery_config" kvs)
      some ⟨s, b⟩
  | _ => none

/-- Modelled from the spec: the error kind of section 7, one
constructor per malformation the validation contract names. -/
inductive ConfigurationError where
  | duplicateFieldName
  | invalidTypeTag
  | missingRequiredValue
  deriving DecidableEq, Repr

/-- The required string settings of the configuration record: the
eight storage values and the table name. -/
def requiredStrings (c : ConfigRecord) : List String :=
  [ c.storage.project_id, c.storage.bucket_name, c.storage.dataset_id,
    c.storage.location, c.storage.storage_class,
    c.storage.raw_data_prefix, c.storage.processed_data_prefix,
    c.storage.model_artifacts_prefix, c.bigquery.booking_table ]

/-- Does some element of the list occur again later in it? -/
def hasDuplicate : List String → Bool
  | [] => false
  | x :: xs => xs.contains x || hasDuplicate xs

/-- Modelled from the spec: the validation contract of section 4.1 —
construction fails with a ConfigurationError on a duplicated field
name, a type tag outside the fixed enumeration, or an empty required
string setting; the source has no validation code. -/
def validateConfig (c : ConfigRecord) : Except ConfigurationError Unit :=
  if hasDuplicate (c.bigquery.schema.map FieldDescriptor.name) then
    Except.error ConfigurationError.duplicateFieldName
  else if c.bigquery.schema.any (fun f => !(ALLOWED_TYPES.contains f.type)) then
    Except.error ConfigurationError.invalidTypeTag
  else if (requiredStrings c).any (fun s => s.isEmpty) then
    Except.error ConfigurationError.missingRequiredValue
  else
    Except.ok ()

/-- The declarative malformation predicate the spec states: a repeated
field name, a type tag outside the enumeration, or an empty required
setting. -/
def Malformed (c : ConfigRecord) : Prop :=
  ¬ (c.bigquery.schema.map FieldDescriptor.name).Nodup ∨
  (∃ f ∈ c.bigquery.schema, f.type ∉ ALLOWED_TYPES) ∨
  (∃ s ∈ requiredStrings c, s = "")

/-- hasDuplicate answers true exactly on lists that are not nodup. -/
theorem hasDuplicate_iff (l : List String) :
    hasDuplicate l = true ↔ ¬ l.Nodup := by
  induction l with
  | nil => simp [hasDuplicate]
  | cons x xs ih =>
      simp only [hasDuplicate, Bool.or_eq_true, ih, List.nodup_cons,
        List.contains, List.elem_iff]
      tauto

/-- C1: the claim as stated — the schema list of the hotel_bookings
table has exactly 31 field descriptors. This is false on the source:
lines 18-49 of gcp_config.py hold 32 dict literals. -/
theorem schema_length_ne_31 : BIGQUERY_CONFIG.schema.length ≠ 31 := by
  decide

/-- C1 (amended): the schema list has exactly 32 field descriptors. -/
theorem schema_length_eq_32 : BIGQUERY_CONFIG.schema.length = 32 := by
  decide

/-- C2: the name attributes of the schema entries are pairwise
distinct. -/
theorem schema_names_nodup :
    (BIGQUERY_CONFIG.schema.map FieldDescriptor.name).Nodup := by
  decide

/-- C3: every schema entry's type tag belongs to the fixed
enumeration STRING, INTEGER, FLOAT, DATE. -/
theorem schema_types_allowed :
    ∀ f ∈ BIGQUERY_CONFIG.schema, f.type ∈ ALLOWED_TYPES := by
  decide

/-- C4: looking the schema up by name gives FLOAT for adr, DATE for
reservation_status_date, and none (not a crash) for a name that is not
present, such as nonexistent_field. -/
theorem schema_lookup_scenario :
    (findField "adr").map FieldDescriptor.type = some "FLOAT" ∧
    (findField "reservation_status_date").map FieldDescriptor.type
      = some "DATE" ∧
    findField "nonexistent_field" = none := by
  refine ⟨?_, ?_, ?_⟩ <;> decide

/-- C5: getStorageConfig is deterministic — any two runs of the
accessor return identical storage configurations. -/
theorem getStorageConfig_deterministic :
    ∀ u v : Unit, getStorageConfig u = getStorageConfig v := by
  intro u v
  rfl

/-- C7: each of the three path-prefix strings of the storage
configuration is non-empty and its last character is the path
separator. -/
theorem storage_prefixes_end_in_separator :
    ( GCP_CONFIG.raw_data_prefix ≠ "" ∧
       GCP_CONFIG.raw_data_prefix.data.getLast? = some '/') ∧
    ( GCP_CONFIG.processed_data_prefix ≠ "" ∧
       GCP_CONFIG.processed_data_prefix.data.getLast? = some '/') ∧
    ( GCP_CONFIG.model_artifacts_prefix ≠ "" ∧
       GCP_CONFIG.model_artifacts_prefix.data.getLast? = some '/') := by
  refine ⟨⟨?_, ?_⟩, ⟨?_, ?_⟩, ⟨?_, ?_⟩⟩ <;> decide

/-- C9: the schema list has exactly 32 entries, and every entry is
determined by exactly its two string attributes name and type. -/
theorem schema_shape :
    BIGQUERY_CONFIG.schema.length = 32 ∧
    ∀ f ∈ BIGQUERY_CONFIG.schema, f = FieldDescriptor.mk f.name f.type := by
  constructor
  · decide
  · intro f _
    rfl

/-- C10: all eight storage-configuration values are non-empty
strings. -/
theorem storage_values_nonempty :
    GCP_CONFIG.project_id ≠ "" ∧
    GCP_CONFIG.bucket_name ≠ "" ∧
    GCP_CONFIG.dataset_id ≠ "" ∧
    GCP_CONFIG.location ≠ "" ∧
    GCP_CONFIG.storage_class ≠ "" ∧
    GCP_CONFIG.raw_data_prefix ≠ "" ∧
    GCP_CONFIG.processed_data_prefix ≠ "" ∧
    GCP_CONFIG.model_artifacts_prefix ≠ "" := by
  refine ⟨?_, ?_, ?_, ?_, ?_, ?_, ?_, ?_⟩ <;> decide

/-- C6: serializing the configuration record to JSON and parsing the
result back yields the original record. -/
theorem config_json_roundtrip :
    ConfigRecord.fromJson (ConfigRecord.toJson CONFIG_RECORD)
      = some CONFIG_RECORD := by
  rfl

/-- C8: construction of the configuration record fails with a
ConfigurationError exactly when the data is malformed — a duplicated
field name, a type tag outside the fixed enumeration, or an empty
required string setting — and succeeds otherwise. -/
theorem validate_error_iff_malformed (c : ConfigRecord) :
    (∃ e, validateConfig c = Except.error e) ↔ Malformed c := by
  unfold validateConfig Malformed
  rcases h1 : hasDuplicate (c.bigquery.schema.map FieldDescriptor.name) with _ | _
  · rcases h2 : c.bigquery.schema.any (fun f => !(ALLOWED_TYPES.contains f.type)) with _ | _
    · rcases h3 : (requiredStrings c).any (fun s => s.isEmpty) with _ | _
      · simp only [h1, h2, h3, Bool.false_eq_true, if_false, reduceCtorEq,
          exists_false, false_iff, not_or]
        refine ⟨?_, ?_, ?_⟩
        · rw [← hasDuplicate_iff, h1]
          simp
        · intro hex
          rcases hex with ⟨f, hf, hft⟩
          have hfp : (!(ALLOWED_TYPES.contains f.type)) = true := by
            simp only [Bool.not_eq_true']
            simpa [List.contains, List.elem_iff] using hft
          have hany : c.bigquery.schema.any
              (fun f => !(ALLOWED_TYPES.contains f.type)) = true :=
            List.any_eq_true.2 ⟨f, hf, hfp⟩
          rw [h2] at hany
          exact Bool.false_ne_true hany
        · intro hex
          rcases hex with ⟨s, hs, hse⟩
          have hsp : s.isEmpty = true := by
            simp [String.isEmpty_iff, hse]
          have hany : (requiredStrings c).any (fun s => s.isEmpty) = true :=
            List.any_eq_true.2 ⟨s, hs, hsp⟩
          rw [h3] at hany
          exact Bool.false_ne_true hany
      · simp only [h1, h2, h3, Bool.false_eq_true, if_false, if_true]
        constructor
        · intro _
          right; right
          rcases List.any_eq_true.1 h3 with ⟨s, hs, hse⟩
          exact ⟨s, hs, (String.isEmpty_iff s).1 hse⟩
        · intro _
          exact ⟨ConfigurationError.missingRequiredValue, rfl⟩
    · simp only [h1, h2, Bool.false_eq_true, if_false, if_true]
      constructor
      · intro _
        right; left
        rcases List.any_eq_true.1 h2 with ⟨f, hf, hft⟩
        refine ⟨f, hf, ?_⟩
        have hft' : ALLOWED_TYPES.contains f.type = false := by
          simpa using hft
        intro hmem
        have : ALLOWED_TYPES.contains f.type = true := by
          simp [List.contains, List.elem_iff, hmem]
        rw [hft'] at this
        exact Bool.false_ne_true this
      · intro _
        exact ⟨ConfigurationError.invalidTypeTag, rfl⟩
  · simp only [h1, if_true]
    constructor
    · intro _
      left
      exact (hasDuplicate_iff _).1 h1
    · intro _
      exact ⟨ConfigurationError.duplicateFieldName, rfl⟩

/-- Sanity: the literal configuration record of the module passes the
validation contract. -/
theorem validateConfig_ok : validateConfig CONFIG_RECORD = Except.ok () := by
  rfl

/-- C3 witness: the adr descriptor is in the schema and its type tag
is in the enumeration. -/
theorem schema_types_allowed_witness :
    FieldDescriptor.mk "adr" "FLOAT" ∈ BIGQUERY_CONFIG.schema ∧
    (FieldDescriptor.mk "adr" "FLOAT").type ∈ ALLOWED_TYPES :=
  ⟨by decide, schema_types_allowed ⟨"adr", "FLOAT"⟩ (by decide)⟩

/-- C5 witness: two concrete runs of the accessor agree. -/
theorem getStorageConfig_deterministic_witness :
    getStorageConfig () = getStorageConfig () :=
  getStorageConfig_deterministic () ()

/-- C8 witness: the equivalence instantiated at the literal
configuration record of the module. -/
theorem validate_error_iff_malformed_witness :
    ((∃ e, validateConfig CONFIG_RECORD = Except.error e)
      ↔ Malformed CONFIG_RECORD) :=
  validate_error_iff_malformed CONFIG_RECORD

/-- C9 witness: the hotel descriptor is in the schema and is
determined by its name and type attributes. -/
theorem schema_shape_witness :
    FieldDescriptor.mk "hotel" "STRING" ∈ BIGQUERY_CONFIG.schema ∧
    FieldDescriptor.mk "hotel" "STRING"
      = FieldDescriptor.mk (FieldDescriptor.mk "hotel" "STRING").name
          (FieldDescriptor.mk "hotel" "STRING").type :=
  ⟨by decide, schema_shape.2 ⟨"hotel", "STRING"⟩ (by decide)⟩
